import Mathlib

/-!
Shallow embedding of the alert fan-out / delivery-tracking subsystem of the
SIH_water repository (`apps/alerts/services.py`, `apps/alerts/models.py`) and
of the rule-based contamination scorer
(`apps/accounts/management/commands/load_real_sample_data.py`),
together with theorems settling the specification claims about them.

Django model rows become Lean structures; foreign keys are compared by
primary key (`id`), matching Django's `Q(field=obj)` semantics; nullable
foreign keys become `Option`; `JSONField` dictionaries become association
lists of strings; Python exceptions that a caller catches become `Except` /
recorded error strings; external transports (SMTP, Twilio, the channel
layer) become explicit fields of a `DeliveryEnv` record that says whether
the corresponding call succeeds or raises.
-/

set_option maxHeartbeats 1000000

namespace SIHWater

/-! ## Geography (`apps/geography`): state → district → block → village -/

structure State where
  id : Nat
  name : String
deriving DecidableEq, Repr

structure District where
  id : Nat
  name : String
  state : State
deriving DecidableEq, Repr

structure Block where
  id : Nat
  name : String
  district : District
deriving DecidableEq, Repr

structure Village where
  id : Nat
  name : String
  block : Block
deriving DecidableEq, Repr

/-! ## Users (`apps/accounts`): only the fields the alert service reads.
Django's `if not user.email` treats the empty string as "no email". -/

structure User where
  id : Nat
  email : String
  phone_number : String
deriving DecidableEq, Repr

/-! ## Alert models (`apps/alerts/models.py`) -/

/-- `AlertNotification` row: the fields `AlertService` reads or writes.
Timestamps are modelled as naturals. -/
structure AlertNotification where
  id : Nat
  alert_id : String
  alert_type : String
  alert_severity : String
  alert_status : String
  title : String
  message : String
  description : String
  village : Option Village
  district : Option District
  state : Option State
  acknowledged_by : Option Nat
  resolved_by : Option Nat
  triggered_at : Nat
  acknowledged_at : Option Nat
  resolved_at : Option Nat
  alert_data : List (String × String)
  delivery_attempts : Nat
  last_delivery_attempt : Option Nat
  resolution_notes : String
deriving DecidableEq, Repr

/-- `AlertSubscription` row. `delivery_methods` is the JSON list of channel
names; geographic scope fields are nullable foreign keys. -/
structure AlertSubscription where
  user : User
  alert_type : String
  delivery_methods : List String
  is_active : Bool
  state : Option State
  district : Option District
  village : Option Village
  min_severity : String
deriving DecidableEq, Repr

/-- `AlertDeliveryLog` row as created by `AlertService.send_to_subscriber`.
The model declares `delivery_attempt = models.PositiveIntegerField(default=1)`
and the service's `objects.create` call never passes that field. -/
structure AlertDeliveryLog where
  alert_id : String
  user_id : Nat
  delivery_method : String
  delivery_status : String
  delivery_attempt : Nat
  delivery_response : List (String × String)
  error_message : String
deriving DecidableEq, Repr, Inhabited

/-- `AlertTemplate` row: the fields the channel adapters read. -/
structure AlertTemplate where
  alert_type : String
  delivery_method : String
  is_active : Bool
  subject_template : String
  message_template : String
deriving DecidableEq, Repr

/-! ## External environment of the service

`AlertService` talks to SMTP (`send_mail`), Twilio, and the channel layer.
Those transports are modelled explicitly: `email_send_error = some e` means
`send_mail` raises an exception rendering as `e`, and so on. -/

structure DeliveryEnv where
  subscriptions : List AlertSubscription
  templates : List AlertTemplate
  email_send_error : Option String
  twilio_configured : Bool
  sms_send_error : Option String
  whatsapp_send_error : Option String
  sms_sid : String
  whatsapp_sid : String
  channel_layer : Bool
  now : Nat
deriving Repr

/-! ## Severity ordering (`get_alert_subscribers`) -/

/-- `severity_order = ['LOW', 'MEDIUM', 'HIGH', 'CRITICAL']`. -/
def severity_order : List String := ["LOW", "MEDIUM", "HIGH", "CRITICAL"]

/-- Python's `list.index`: position of the first occurrence, or `none`
where Python raises `ValueError`. -/
def listIndex (a : String) : List String → Option Nat
  | [] => none
  | x :: xs => if x = a then some 0 else (listIndex a xs).map (· + 1)

/-- Rendering of the `ValueError` that `list.index` raises, as caught and
stringified by `send_alert`. -/
def valueErrorMsg (s : String) : String := s ++ " is not in list"

/-- Foreign-key comparison against a nullable column: Django's
`Q(field=obj)` is false when the column is NULL. -/
def fkEq {α : Type} (idOf : α → Nat) (o : Option α) (i : Nat) : Bool :=
  match o with
  | some x => idOf x == i
  | none => false

/-- The geographic-scope filter of `get_alert_subscribers`, branch for
branch: a chain of `if alert.village / elif alert.district / elif
alert.state` queryset filters, each an OR of `Q` objects. When the alert
has no scope at all, no geographic filter is applied. -/
def geoCompatible (alert : AlertNotification) (s : AlertSubscription) : Bool :=
  match alert.village with
  | some v =>
      fkEq Village.id s.village v.id ||
      (s.village.isNone && fkEq District.id s.district v.block.district.id) ||
      (s.village.isNone && s.district.isNone &&
        fkEq State.id s.state v.block.district.state.id)
  | none =>
    match alert.district with
    | some d =>
        fkEq District.id s.district d.id ||
        (s.district.isNone && fkEq State.id s.state d.state.id)
    | none =>
      match alert.state with
      | some st => fkEq State.id s.state st.id || s.state.isNone
      | none => true

/-- The severity loop of `get_alert_subscribers`: for each surviving
subscription look up `min_severity` in `severity_order` (raising where
Python raises) and keep the user when
`alert_severity_index >= min_severity_index`. -/
def collectSubscribers (ai : Nat) : List AlertSubscription → Except String (List User)
  | [] => .ok []
  | s :: rest =>
    match listIndex s.min_severity severity_order with
    | none => .error (valueErrorMsg s.min_severity)
    | some mi =>
      if mi ≤ ai then (collectSubscribers ai rest).map (fun us => s.user :: us)
      else collectSubscribers ai rest

/-- Python's `list(set(subscribers))`: de-duplication of Django user
instances, which compare by primary key. -/
def dedupUsers (l : List User) : List User :=
  l.foldr (fun u acc => if acc.any (fun v => v.id == u.id) then acc else u :: acc) []

/-- `AlertService.get_alert_subscribers`: filter active subscriptions of the
alert's type, apply the geographic-scope filter, then the severity gate,
and de-duplicate. A severity string outside `severity_order` raises
`ValueError`, modelled as `.error`. -/
def get_alert_subscribers (subsDb : List AlertSubscription)
    (alert : AlertNotification) : Except String (List User) :=
  let subscriptions := subsDb.filter
    (fun s => s.alert_type == alert.alert_type && s.is_active)
  let subscriptions := subscriptions.filter (geoCompatible alert)
  match listIndex alert.alert_severity severity_order with
  | none => .error (valueErrorMsg alert.alert_severity)
  | some ai => (collectSubscribers ai subscriptions).map dedupUsers

/-! ## Channel adapters

Each adapter returns a Python dict; optional keys become `Option` fields.
The early-return failure dicts of the source (`{'success': False,
'error': ...}`) carry **no** `'status'` key, which matters downstream. -/

/-- Outcome dict of one channel adapter call. -/
structure ChannelResult where
  success : Bool
  status : Option String := none
  method : Option String := none
  response : Option (List (String × String)) := none
  error : Option String := none
deriving DecidableEq, Repr

/-- `alert.village.name if alert.village else 'Unknown'`. -/
def villageName (alert : AlertNotification) : String :=
  match alert.village with
  | some v => v.name
  | none => "Unknown"

def lbrace : String := String.singleton (Char.ofNat 123)

def rbrace : String := String.singleton (Char.ofNat 125)

/-- Python's `str.format` with keyword arguments, for the template strings:
every `\x7bkey\x7d` placeholder is replaced by its argument. -/
def pyFormat (tpl : String) (args : List (String × String)) : String :=
  args.foldl (fun acc kv => acc.replace (lbrace ++ kv.1 ++ rbrace) kv.2) tpl

/-- Active template lookup for `(alert_type, delivery_method)`:
`AlertTemplate.objects.filter(...).first()`. -/
def findTemplate (env : DeliveryEnv) (alert : AlertNotification)
    (method : String) : Option AlertTemplate :=
  (env.templates.filter (fun t =>
    t.alert_type == alert.alert_type && t.delivery_method == method &&
      t.is_active)).head?

/-- `AlertService.send_email`. No email address short-circuits with a dict
lacking `'status'`; a transport exception from `send_mail` is caught and
turned into a FAILED dict. -/
def send_email (env : DeliveryEnv) (alert : AlertNotification)
    (user : User) : ChannelResult :=
  if user.email == "" then
    { success := false, error := some "User has no email address" }
  else
    let template := findTemplate env alert "EMAIL"
    let subject := match template with
      | some t => pyFormat t.subject_template
          [("title", alert.title), ("village", villageName alert),
           ("severity", alert.alert_severity)]
      | none => "Health Alert: " ++ alert.title
    let message := match template with
      | some t => pyFormat t.message_template
          [("title", alert.title), ("message", alert.message),
           ("description", alert.description),
           ("village", villageName alert),
           ("severity", alert.alert_severity),
           ("triggered_at", toString alert.triggered_at)]
      | none =>
          alert.message ++ "\n\n" ++ alert.description ++ "\n\nVillage: " ++
            villageName alert ++ "\nSeverity: " ++ alert.alert_severity ++
            "\nTime: " ++ toString alert.triggered_at ++
            "\n\nPlease take appropriate action."
    let _ := subject
    let _ := message
    match env.email_send_error with
    | some e => { success := false, error := some e, status := some "FAILED" }
    | none =>
        { success := true, status := some "SENT", method := some "EMAIL",
          response := some [("email", user.email)] }

/-- `AlertService.send_sms`: phone check, template or default message,
160-character truncation, then Twilio (or the simulated path when Twilio is
unconfigured, which still reports success). -/
def send_sms (env : DeliveryEnv) (alert : AlertNotification)
    (user : User) : ChannelResult :=
  if user.phone_number == "" then
    { success := false, error := some "User has no phone number" }
  else
    let message := match findTemplate env alert "SMS" with
      | some t => pyFormat t.message_template
          [("title", alert.title), ("message", alert.message),
           ("village", villageName alert),
           ("severity", alert.alert_severity)]
      | none =>
          "Health Alert: " ++ alert.title ++ " in " ++ villageName alert ++
            ". " ++ alert.message
    let message := if 160 < message.length then message.take 157 ++ "..." else message
    if env.twilio_configured then
      match env.sms_send_error with
      | some e => { success := false, error := some e, status := some "FAILED" }
      | none =>
          { success := true, status := some "SENT", method := some "SMS",
            response := some [("message_sid", env.sms_sid)] }
    else
      { success := true, status := some "SENT", method := some "SMS",
        response := some [("test_mode", "True"), ("message", message)] }

/-- `AlertService.send_whatsapp`: same shape as `send_sms`, without the
truncation. -/
def send_whatsapp (env : DeliveryEnv) (alert : AlertNotification)
    (user : User) : ChannelResult :=
  if user.phone_number == "" then
    { success := false, error := some "User has no phone number" }
  else
    let message := match findTemplate env alert "WHATSAPP" with
      | some t => pyFormat t.message_template
          [("title", alert.title), ("message", alert.message),
           ("village", villageName alert),
           ("severity", alert.alert_severity)]
      | none =>
          "Health Alert: " ++ alert.title ++ "\n\n" ++ alert.message ++
            "\n\nVillage: " ++ villageName alert ++ "\nSeverity: " ++
            alert.alert_severity ++ "\nTime: " ++ toString alert.triggered_at
    let _ := message
    if env.twilio_configured then
      match env.whatsapp_send_error with
      | some e => { success := false, error := some e, status := some "FAILED" }
      | none =>
          { success := true, status := some "SENT", method := some "WHATSAPP",
            response := some [("message_sid", env.whatsapp_sid)] }
    else
      { success := true, status := some "SENT", method := some "WHATSAPP",
        response := some [("test_mode", "True"), ("message", message)] }

/-- `AlertService.send_push_notification`: placeholder, always succeeds. -/
def send_push_notification (user : User) : ChannelResult :=
  { success := true, status := some "SENT", method := some "PUSH",
    response := some [("test_mode", "True"), ("user_id", toString user.id)] }

/-! ## Real-time WebSocket fan-out -/

/-- One `channel_layer.group_send` call: target group name, message type
and the serialised alert payload. -/
structure WsSend where
  group : String
  msg_type : String
  alert_id : String
  alert_type : String
  alert_severity : String
  title : String
deriving DecidableEq, Repr

/-- `AlertService.send_websocket_notification`. With a user argument it
targets that user's personal group; without one it targets the group of
every non-null scope field of the alert (its own `village` / `district` /
`state` columns — no hierarchy derivation). A missing channel layer means
no sends; errors are swallowed. -/
def send_websocket_notification (env : DeliveryEnv)
    (alert : AlertNotification) (user : Option User) : List WsSend :=
  if !env.channel_layer then [] else
  let mk : String → WsSend := fun g =>
    { group := g, msg_type := "new_alert", alert_id := alert.alert_id,
      alert_type := alert.alert_type, alert_severity := alert.alert_severity,
      title := alert.title }
  match user with
  | some u => [mk ("alerts_user_" ++ toString u.id)]
  | none =>
      (match alert.village with
        | some v => [mk ("alerts_village_" ++ toString v.id)]
        | none => []) ++
      (match alert.district with
        | some d => [mk ("alerts_district_" ++ toString d.id)]
        | none => []) ++
      (match alert.state with
        | some st => [mk ("alerts_state_" ++ toString st.id)]
        | none => [])

/-- `AlertService.send_dashboard_notification`: sends the per-user
WebSocket notification (whose own errors are swallowed) and reports
success. -/
def send_dashboard_notification (env : DeliveryEnv)
    (alert : AlertNotification) (user : User) : ChannelResult :=
  let _ := send_websocket_notification env alert (some user)
  { success := true, status := some "SENT", method := some "DASHBOARD",
    response := some [("websocket_sent", "True")] }

/-- `AlertService.send_via_method`: dispatch on the channel name; an
unknown name yields a failure dict with no `'status'` key. -/
def send_via_method (env : DeliveryEnv) (alert : AlertNotification)
    (user : User) (method : String) : ChannelResult :=
  if method == "EMAIL" then send_email env alert user
  else if method == "SMS" then send_sms env alert user
  else if method == "WHATSAPP" then send_whatsapp env alert user
  else if method == "PUSH" then send_push_notification user
  else if method == "DASHBOARD" then send_dashboard_notification env alert user
  else { success := false, error := some ("Unknown delivery method: " ++ method) }

/-! ## Per-subscriber dispatch (`send_to_subscriber`) -/

/-- Result dict of `send_to_subscriber`. -/
structure SubscriberResult where
  success : Bool
  user_id : Option Nat := none
  delivery_results : Option (List ChannelResult) := none
  error : Option String := none
deriving DecidableEq, Repr

/-- Rendering of the `KeyError` raised by `result['status']` when an
adapter's dict has no `'status'` key, as stringified by the enclosing
`except` clause. -/
def keyErrorStatusMsg : String := "status"

/-- The `AlertDeliveryLog.objects.create(...)` call in
`send_to_subscriber`: `delivery_attempt` is never passed, so the model
default `1` applies; `response`/`error` are read with `.get` defaults. -/
def mkDeliveryLog (alert : AlertNotification) (user : User) (method : String)
    (st : String) (r : ChannelResult) : AlertDeliveryLog :=
  { alert_id := alert.alert_id, user_id := user.id, delivery_method := method,
    delivery_status := st, delivery_attempt := 1,
    delivery_response := r.response.getD [],
    error_message := r.error.getD "" }

/-- The channel loop of `send_to_subscriber`: invoke the adapter, then log
the attempt reading `result['status']`. A result without a `'status'` key
raises `KeyError`, aborting the loop: no log row for that channel, no
further channels, logs already created kept (each `objects.create` had
already committed). Returns the collected results, the created log rows
and the exception, if one was raised. -/
def deliverMethods (env : DeliveryEnv) (alert : AlertNotification)
    (user : User) :
    List String → List ChannelResult × List AlertDeliveryLog × Option String
  | [] => ([], [], none)
  | m :: ms =>
    let r := send_via_method env alert user m
    match r.status with
    | none => ([r], [], some keyErrorStatusMsg)
    | some st =>
      let log := mkDeliveryLog alert user m st r
      let (rs, ls, err) := deliverMethods env alert user ms
      (r :: rs, log :: ls, err)

/-- `AlertService.send_to_subscriber`: look up the **first** subscription
of this user for the alert's type (no active / scope / severity filter),
run the channel loop over its `delivery_methods`, and report success when
at least one channel succeeded. Any exception is caught and returned as a
failure dict; log rows created before the exception persist. -/
def send_to_subscriber (env : DeliveryEnv) (alert : AlertNotification)
    (user : User) : SubscriberResult × List AlertDeliveryLog :=
  match (env.subscriptions.filter (fun s =>
      s.user.id == user.id && s.alert_type == alert.alert_type)).head? with
  | none => ({ success := false, error := some "No subscription found" }, [])
  | some subscription =>
    let (rs, ls, err) := deliverMethods env alert user subscription.delivery_methods
    match err with
    | some e => ({ success := false, error := some e }, ls)
    | none =>
        ({ success := (rs.countP (fun r => r.success)) != 0,
           user_id := some user.id, delivery_results := some rs }, ls)

/-! ## Top-level dispatch (`send_alert`) -/

/-- Result dict of `send_alert`. -/
structure SendResult where
  success : Bool
  error : Option String := none
  total_subscribers : Option Nat := none
  successful_deliveries : Option Nat := none
deriving DecidableEq, Repr

/-- Everything a `send_alert` call produces: its return dict, the
`AlertDeliveryLog` rows created, the alert row as saved (possibly with
updated delivery counters) and the WebSocket group sends. -/
structure DispatchOutcome where
  result : SendResult
  logs : List AlertDeliveryLog
  alert : AlertNotification
  ws : List WsSend
deriving Repr

/-- `AlertService.send_alert`: resolve subscribers (an exception there is
caught and returned as a structured failure), short-circuit when none
match, otherwise dispatch to each subscriber, fan out over WebSocket,
increment `delivery_attempts` by one and set `last_delivery_attempt` to
the alert's own `triggered_at`. -/
def send_alert (env : DeliveryEnv) (alert : AlertNotification) :
    DispatchOutcome :=
  match get_alert_subscribers env.subscriptions alert with
  | .error e =>
      { result := { success := false, error := some e },
        logs := [], alert := alert, ws := [] }
  | .ok subscribers =>
    if subscribers.isEmpty then
      { result := { success := false, error := some "No subscribers found" },
        logs := [], alert := alert, ws := [] }
    else
      let pairs := subscribers.map (fun u => send_to_subscriber env alert u)
      let ws := send_websocket_notification env alert none
      let alert1 := { alert with
        delivery_attempts := alert.delivery_attempts + 1,
        last_delivery_attempt := some alert.triggered_at }
      let succ := (pairs.map Prod.fst).countP (fun r => r.success)
      { result := { success := succ != 0,
                    total_subscribers := some subscribers.length,
                    successful_deliveries := some succ },
        logs := (pairs.map Prod.snd).flatten, alert := alert1, ws := ws }

/-! ## Lifecycle operations -/

/-- `AlertService.acknowledge_alert`: unconditionally sets the status to
ACKNOWLEDGED with actor and timestamp, saves, notifies, returns `true`. -/
def acknowledge_alert (env : DeliveryEnv) (alert : AlertNotification)
    (user : User) : AlertNotification × Bool × List WsSend :=
  let alert1 := { alert with
    alert_status := "ACKNOWLEDGED",
    acknowledged_by := some user.id,
    acknowledged_at := some env.now }
  (alert1, true, send_websocket_notification env alert1 none)

/-- `AlertService.resolve_alert`: unconditionally sets the status to
RESOLVED with actor, timestamp and notes, saves, notifies, returns
`true`. -/
def resolve_alert (env : DeliveryEnv) (alert : AlertNotification)
    (user : User) (resolution_notes : String) :
    AlertNotification × Bool × List WsSend :=
  let alert1 := { alert with
    alert_status := "RESOLVED",
    resolved_by := some user.id,
    resolved_at := some env.now,
    resolution_notes := resolution_notes }
  (alert1, true, send_websocket_notification env alert1 none)

/-! ## Rule-based contamination scorer
(`load_real_sample_data.py`, `create_water_quality_data_from_csv`) -/

/-- One CSV row of water readings, as read by the scorer. -/
structure CsvRow where
  ecoli_count_per_100ml : ℚ
  turbidity_ntu : ℚ
  water_ph : ℚ
deriving DecidableEq, Repr

/-- The contamination-level rule: thresholds on the E. coli count only.
`if ecoli_count > 100: 'HIGH_RISK' elif > 50: 'MODERATE_RISK'
elif > 10: 'LOW_RISK' else: 'SAFE'`. -/
def row_contamination_level (row : CsvRow) : String :=
  let ecoli_count := row.ecoli_count_per_100ml
  if 100 < ecoli_count then "HIGH_RISK"
  else if 50 < ecoli_count then "MODERATE_RISK"
  else if 10 < ecoli_count then "LOW_RISK"
  else "SAFE"

/-! ## Declarative match predicates

`matchesAlert` is the flat predicate extracted from the resolver's own
filters; `spec_matches` instead follows the specification's §4.1 matching
rule word for word, for comparison with the code. -/

/-- Severity gate as one boolean: both severities resolve to indices in
`severity_order` and the subscription's index is ≤ the alert's. -/
def sevLe (minSev aSev : String) : Bool :=
  match listIndex minSev severity_order, listIndex aSev severity_order with
  | some mi, some ai => mi ≤ ai
  | _, _ => false

/-- Flat form of the resolver's matching condition: category and active
filter, geographic-scope filter, severity gate. -/
def matchesAlert (alert : AlertNotification) (s : AlertSubscription) : Bool :=
  s.alert_type == alert.alert_type && s.is_active && geoCompatible alert s &&
    sevLe s.min_severity alert.alert_severity

/-- The alert's district under the spec's reading: derived from the
village when one is set (`V → D`), else the alert's own column. -/
def spec_effective_district (a : AlertNotification) : Option District :=
  match a.village with
  | some v => some v.block.district
  | none => a.district

/-- The alert's state under the spec's reading: derived from the village
or district when set (`V → D → ST`), else the alert's own column. -/
def spec_effective_state (a : AlertNotification) : Option State :=
  match a.village with
  | some v => some v.block.district.state
  | none =>
    match a.district with
    | some d => some d.state
    | none => a.state

/-- Geographic compatibility as the specification words it: village equals
the alert's village; or village unset and district equals the alert's
district; or village and district unset and state equals the alert's
state; or all three unset (global subscription). -/
def spec_geo_compatible (a : AlertNotification) (s : AlertSubscription) : Bool :=
  (match s.village, a.village with
    | some sv, some av => sv.id == av.id
    | _, _ => false) ||
  (s.village.isNone &&
    match s.district, spec_effective_district a with
    | some sd, some ad => sd.id == ad.id
    | _, _ => false) ||
  (s.village.isNone && s.district.isNone &&
    match s.state, spec_effective_state a with
    | some ss, some ast => ss.id == ast.id
    | _, _ => false) ||
  (s.village.isNone && s.district.isNone && s.state.isNone)

/-- The specification's matching rule for subscriptions against alerts. -/
def spec_matches (a : AlertNotification) (s : AlertSubscription) : Bool :=
  s.is_active && s.alert_type == a.alert_type &&
    sevLe s.min_severity a.alert_severity && spec_geo_compatible a s

/-! ## Concrete fixtures used by counterexamples and witnesses -/

def st1 : State := { id := 1, name := "Assam" }

def d1 : District := { id := 1, name := "Kamrup", state := st1 }

def b1 : Block := { id := 1, name := "Rani", district := d1 }

def v1 : Village := { id := 1, name := "Rampur", block := b1 }

def u1 : User := { id := 1, email := "u1@example.test", phone_number := "9990001111" }

/-- A user with no email address on file. -/
def u2 : User := { id := 2, email := "", phone_number := "9990002222" }

/-- A village-scoped alert (only the `village` column set). -/
def alertV : AlertNotification :=
  { id := 1, alert_id := "AL-1", alert_type := "WATER_CONTAMINATION",
    alert_severity := "HIGH", alert_status := "ACTIVE", title := "Contamination",
    message := "Contamination detected", description := "E. coli above limit",
    village := some v1, district := none, state := none,
    acknowledged_by := none, resolved_by := none, triggered_at := 3,
    acknowledged_at := none, resolved_at := none, alert_data := [],
    delivery_attempts := 0, last_delivery_attempt := none,
    resolution_notes := "" }

/-- A global subscription of `u1`: same category, active, lowest severity
threshold, no geographic scope at all. -/
def subGlobal : AlertSubscription :=
  { user := u1, alert_type := "WATER_CONTAMINATION",
    delivery_methods := ["EMAIL"], is_active := true, state := none,
    district := none, village := none, min_severity := "LOW" }

/-- A village-scoped subscription of `u1` that matches `alertV`. -/
def subV : AlertSubscription :=
  { user := u1, alert_type := "WATER_CONTAMINATION",
    delivery_methods := ["SMS"], is_active := true, state := none,
    district := none, village := some v1, min_severity := "LOW" }

/-- An inactive subscription of `u1` with channel SMS, first in the
registry. -/
def subInactiveSms : AlertSubscription :=
  { user := u1, alert_type := "WATER_CONTAMINATION",
    delivery_methods := ["SMS"], is_active := false, state := none,
    district := none, village := none, min_severity := "LOW" }

/-- An active matching village subscription of `u1` with channel EMAIL,
second in the registry. -/
def subActiveEmailV : AlertSubscription :=
  { user := u1, alert_type := "WATER_CONTAMINATION",
    delivery_methods := ["EMAIL"], is_active := true, state := none,
    district := none, village := some v1, min_severity := "LOW" }

/-- Subscription of the email-less user `u2` with channels EMAIL then
SMS. -/
def subEmailSms : AlertSubscription :=
  { user := u2, alert_type := "WATER_CONTAMINATION",
    delivery_methods := ["EMAIL", "SMS"], is_active := true, state := none,
    district := none, village := some v1, min_severity := "LOW" }

/-- Baseline environment: Twilio unconfigured (simulated sends), SMTP up,
channel layer present, clock at 5. -/
def env0 : DeliveryEnv :=
  { subscriptions := [], templates := [], email_send_error := none,
    twilio_configured := false, sms_send_error := none,
    whatsapp_send_error := none, sms_sid := "SM1", whatsapp_sid := "WA1",
    channel_layer := true, now := 5 }

def envWith (subs : List AlertSubscription) : DeliveryEnv :=
  { env0 with subscriptions := subs }

/-! ## Helper lemmas -/

theorem listIndex_eq_none {a : String} {l : List String} (h : a ∉ l) :
    listIndex a l = none := by
  induction l with
  | nil => rfl
  | cons x xs ih =>
    simp only [List.mem_cons, not_or] at h
    simp [listIndex, Ne.symm h.1, ih h.2]

theorem listIndex_isSome {a : String} {l : List String} (h : a ∈ l) :
    (listIndex a l).isSome := by
  induction l with
  | nil => simp at h
  | cons x xs ih =>
    by_cases hx : x = a
    · simp [listIndex, hx]
    · rcases List.mem_cons.mp h with h1 | h2
      · exact absurd h1.symm hx
      · simp only [listIndex, if_neg hx]
        have := ih h2
        cases hi : listIndex a xs with
        | none => rw [hi] at this; simp at this
        | some i => simp [hi]

theorem collectSubscribers_eq {aSev : String} {ai : Nat}
    (hA : listIndex aSev severity_order = some ai) :
    ∀ l : List AlertSubscription,
      (∀ s ∈ l, s.min_severity ∈ severity_order) →
      collectSubscribers ai l =
        .ok ((l.filter (fun s => sevLe s.min_severity aSev)).map
          AlertSubscription.user) := by
  intro l
  induction l with
  | nil => intro _; rfl
  | cons s rest ih =>
    intro h
    have hs : s.min_severity ∈ severity_order := h s (by simp)
    have hrest := ih (fun t ht => h t (by simp [ht]))
    obtain ⟨mi, hmi⟩ := Option.isSome_iff_exists.mp (listIndex_isSome hs)
    have hsev : sevLe s.min_severity aSev = decide (mi ≤ ai) := by
      simp [sevLe, hmi, hA]
    by_cases hle : mi ≤ ai
    · simp [collectSubscribers, hmi, hle, hrest, List.filter_cons, hsev,
        Except.map]
    · simp [collectSubscribers, hmi, hle, hrest, List.filter_cons, hsev]

theorem dedupUsers_cons (u : User) (l : List User) :
    dedupUsers (u :: l) =
      if (dedupUsers l).any (fun v => v.id == u.id) then dedupUsers l
      else u :: dedupUsers l := rfl

theorem mem_id_dedupUsers (l : List User) (i : Nat) :
    (∃ v ∈ dedupUsers l, v.id = i) ↔ ∃ v ∈ l, v.id = i := by
  induction l with
  | nil => simp [dedupUsers]
  | cons u l ih =>
    rw [dedupUsers_cons]
    by_cases h : (dedupUsers l).any (fun v => v.id == u.id)
    · rw [if_pos h]
      simp only [List.mem_cons]
      constructor
      · rintro ⟨v, hv, rfl⟩
        obtain ⟨w, hw, hwid⟩ := ih.mp ⟨v, hv, rfl⟩
        exact ⟨w, Or.inr hw, hwid⟩
      · rintro ⟨v, hv | hv, rfl⟩
        · obtain ⟨w, hw, hwid⟩ := List.any_eq_true.mp h
          exact ⟨w, hw, by subst hv; simpa using hwid⟩
        · exact ih.mpr ⟨v, hv, rfl⟩
    · rw [if_neg h]
      simp only [List.mem_cons]
      constructor
      · rintro ⟨v, hv | hv, rfl⟩
        · exact ⟨v, Or.inl hv, rfl⟩
        · obtain ⟨w, hw, hwid⟩ := ih.mp ⟨v, hv, rfl⟩
          exact ⟨w, Or.inr hw, hwid⟩
      · rintro ⟨v, hv | hv, rfl⟩
        · exact ⟨v, Or.inl hv, rfl⟩
        · obtain ⟨w, hw, hwid⟩ := ih.mpr ⟨v, hv, rfl⟩
          exact ⟨w, Or.inr hw, hwid⟩

theorem nodup_ids_dedupUsers (l : List User) :
    ((dedupUsers l).map User.id).Nodup := by
  induction l with
  | nil => simp [dedupUsers]
  | cons u l ih =>
    rw [dedupUsers_cons]
    by_cases h : (dedupUsers l).any (fun v => v.id == u.id)
    · rw [if_pos h]; exact ih
    · rw [if_neg h]
      simp only [List.map_cons, List.nodup_cons]
      refine ⟨?_, ih⟩
      intro hmem
      obtain ⟨v, hv, hvid⟩ := List.mem_map.mp hmem
      exact h (List.any_eq_true.mpr ⟨v, hv, by simp [hvid]⟩)

theorem get_alert_subscribers_ok (db : List AlertSubscription)
    (alert : AlertNotification) (ai : Nat)
    (hA : listIndex alert.alert_severity severity_order = some ai)
    (hS : ∀ s ∈ db, s.min_severity ∈ severity_order) :
    get_alert_subscribers db alert =
      .ok (dedupUsers
        ((((db.filter (fun s => s.alert_type == alert.alert_type && s.is_active)).filter
          (geoCompatible alert)).filter
            (fun s => sevLe s.min_severity alert.alert_severity)).map
          AlertSubscription.user)) := by
  have hsub : ∀ s ∈ (db.filter
        (fun s => s.alert_type == alert.alert_type && s.is_active)).filter
        (geoCompatible alert), s.min_severity ∈ severity_order := by
    intro s hs
    exact hS s (List.mem_filter.mp (List.mem_filter.mp hs).1).1
  simp only [get_alert_subscribers, hA]
  rw [collectSubscribers_eq hA _ hsub]
  rfl

theorem deliverMethods_cons (env : DeliveryEnv) (alert : AlertNotification)
    (user : User) (m : String) (ms : List String) :
    deliverMethods env alert user (m :: ms) =
      match (send_via_method env alert user m).status with
      | none => ([send_via_method env alert user m], [], some keyErrorStatusMsg)
      | some st =>
          (send_via_method env alert user m ::
            (deliverMethods env alert user ms).1,
           mkDeliveryLog alert user m st (send_via_method env alert user m) ::
            (deliverMethods env alert user ms).2.1,
           (deliverMethods env alert user ms).2.2) := by
  cases h : (send_via_method env alert user m).status <;>
    simp [deliverMethods, h]

theorem deliverMethods_attempt_one (env : DeliveryEnv)
    (alert : AlertNotification) (user : User) :
    ∀ ms : List String, ∀ log ∈ (deliverMethods env alert user ms).2.1,
      log.delivery_attempt = 1 := by
  intro ms
  induction ms with
  | nil => intro log hlog; simp [deliverMethods] at hlog
  | cons m ms ih =>
    intro log hlog
    rw [deliverMethods_cons] at hlog
    cases h : (send_via_method env alert user m).status with
    | none => rw [h] at hlog; simp at hlog
    | some st =>
      rw [h] at hlog
      rcases List.mem_cons.mp hlog with h1 | h2
      · subst h1; rfl
      · exact ih log h2

theorem deliverMethods_complete (env : DeliveryEnv)
    (alert : AlertNotification) (user : User) :
    ∀ ms : List String,
      (∀ m ∈ ms, (send_via_method env alert user m).status.isSome) →
      (deliverMethods env alert user ms).2.2 = none ∧
      (deliverMethods env alert user ms).2.1.map
        (fun l => l.delivery_method) = ms := by
  intro ms
  induction ms with
  | nil => intro _; exact ⟨rfl, rfl⟩
  | cons m ms ih =>
    intro h
    have hm := h m (by simp)
    obtain ⟨st, hst⟩ := Option.isSome_iff_exists.mp hm
    have ihm := ih (fun x hx => h x (by simp [hx]))
    rw [deliverMethods_cons, hst]
    exact ⟨ihm.1, by simp [mkDeliveryLog, ihm.2]⟩

/-- The log rows a `send_to_subscriber` call creates are exactly those of
the channel loop over the first `(user, alert_type)` subscription. -/
theorem send_to_subscriber_logs (env : DeliveryEnv)
    (alert : AlertNotification) (user : User) :
    (send_to_subscriber env alert user).2 =
      match (env.subscriptions.filter (fun s =>
          s.user.id == user.id && s.alert_type == alert.alert_type)).head? with
      | none => []
      | some sub => (deliverMethods env alert user sub.delivery_methods).2.1 := by
  cases hfind : (env.subscriptions.filter (fun s =>
      s.user.id == user.id && s.alert_type == alert.alert_type)).head? with
  | none => simp [send_to_subscriber, hfind]
  | some sub =>
    cases herr : (deliverMethods env alert user sub.delivery_methods).2.2 with
    | none => simp [send_to_subscriber, hfind, herr]
    | some e => simp [send_to_subscriber, hfind, herr]

/-! ## Claim C1 — subscriber resolution -/

/-- C1, counterexample: the claim's matching rule admits a global
subscription (village, district and state all unset) for a village-scoped
alert, but `get_alert_subscribers` does not: for a village-scoped alert
its geographic filter requires the subscription's state to equal the
alert's state in the all-`NULL`-village-and-district disjunct, so the
all-unset subscription is filtered out and its user is not in the output.
Hence "U is included iff U holds a matching subscription" fails. -/
theorem C1_counterexample :
    spec_matches alertV subGlobal = true ∧
    subGlobal.user = u1 ∧
    get_alert_subscribers [subGlobal] alertV = Except.ok [] := by
  refine ⟨by decide, rfl, rfl⟩

/-- C1, amended: a user is in the resolver's output iff they hold at least
one subscription that is active, of the alert's category, within the
severity gate, and compatible with the alert's scope **as the code branches
on it**: for a village-scoped alert the subscription must name that
village, or (village unset) its district, or (village and district unset)
its state — an all-unset subscription does not match; for a district-scoped
alert the subscription must name that district (its village column is not
constrained) or (district unset) its state; for a state-scoped alert the
subscription must name that state or have it unset; an alert with no scope
matches every active subscription of its category. Each user appears at
most once. Requires all severities to be members of `severity_order`. -/
theorem C1_resolver_members (db : List AlertSubscription)
    (alert : AlertNotification)
    (hA : alert.alert_severity ∈ severity_order)
    (hS : ∀ s ∈ db, s.min_severity ∈ severity_order) :
    ∃ l, get_alert_subscribers db alert = .ok l ∧
      (∀ uid, (∃ v ∈ l, v.id = uid) ↔
        ∃ s ∈ db, matchesAlert alert s = true ∧ s.user.id = uid) ∧
      (l.map User.id).Nodup := by
  obtain ⟨ai, hai⟩ := Option.isSome_iff_exists.mp (listIndex_isSome hA)
  refine ⟨_, get_alert_subscribers_ok db alert ai hai hS, ?_,
    nodup_ids_dedupUsers _⟩
  intro uid
  rw [mem_id_dedupUsers]
  constructor
  · rintro ⟨v, hv, rfl⟩
    obtain ⟨s, hs, rfl⟩ := List.mem_map.mp hv
    have h3 := List.mem_filter.mp hs
    have h2 := List.mem_filter.mp h3.1
    have h1 := List.mem_filter.mp h2.1
    refine ⟨s, h1.1, ?_, rfl⟩
    simp only [matchesAlert, Bool.and_eq_true]
    exact ⟨⟨Bool.and_eq_true _ _ ▸ h1.2, h2.2⟩, h3.2⟩
  · rintro ⟨s, hs, hm, rfl⟩
    simp only [matchesAlert, Bool.and_eq_true] at hm
    refine ⟨s.user, List.mem_map.mpr ⟨s, ?_, rfl⟩, rfl⟩
    exact List.mem_filter.mpr ⟨List.mem_filter.mpr
      ⟨List.mem_filter.mpr ⟨hs, Bool.and_eq_true _ _ ▸ hm.1.1⟩, hm.1.2⟩, hm.2⟩

/-- C1, witness: the amended membership theorem applied to the concrete
village subscription `subV` and village-scoped alert `alertV`. -/
theorem C1_resolver_members_witness :
    ∃ l, get_alert_subscribers [subV] alertV = .ok l ∧
      (∀ uid, (∃ v ∈ l, v.id = uid) ↔
        ∃ s ∈ [subV], matchesAlert alertV s = true ∧ s.user.id = uid) ∧
      (l.map User.id).Nodup :=
  C1_resolver_members [subV] alertV (by decide) (by decide)

/-! ## Claim C2 — per-channel logging and failure independence -/

/-- C2, failing input evaluated: subscriber `u2` has no email address and
a subscription with channels `[EMAIL, SMS]`. The email adapter's
early-return dict has no `'status'` key, so the logging call
`result['status']` raises `KeyError`, which aborts the channel loop:
**zero** `DeliveryLog` rows are created (not one per attempt) and SMS —
which would have succeeded — is never attempted, contradicting both halves
of the claim. -/
theorem C2_keyerror_aborts_channels :
    (send_to_subscriber (envWith [subEmailSms]) alertV u2).2 = [] ∧
    (send_to_subscriber (envWith [subEmailSms]) alertV u2).1.success = false ∧
    (send_to_subscriber (envWith [subEmailSms]) alertV u2).1.error =
      some keyErrorStatusMsg ∧
    (send_email (envWith [subEmailSms]) alertV u2).status = none ∧
    (send_via_method (envWith [subEmailSms]) alertV u2 "SMS").success = true :=
  ⟨rfl, rfl, rfl, rfl, rfl⟩

/-! ## Claim C3 — channels come from the matching subscription -/

/-- C3, counterexample: user `u1` holds two subscriptions of the alert's
category — first (in registry order) an inactive one with channel SMS,
second an active village subscription with channel EMAIL. Resolution
admits `u1` only through the second, but `send_to_subscriber` looks up the
**first** `(user, alert_type)` subscription with no active, scope or
severity filter, so it attempts and logs SMS, not EMAIL. -/
theorem C3_counterexample :
    get_alert_subscribers [subInactiveSms, subActiveEmailV] alertV =
      Except.ok [u1] ∧
    matchesAlert alertV subInactiveSms = false ∧
    matchesAlert alertV subActiveEmailV = true ∧
    ((send_to_subscriber (envWith [subInactiveSms, subActiveEmailV]) alertV
      u1).2.map (fun l => l.delivery_method)) = ["SMS"] := by
  refine ⟨rfl, by decide, by decide, rfl⟩

/-- C3, amended: the channels attempted for a subscriber are read from the
first subscription stored for `(user, alert category)` — which need not be
active, in scope, or within the severity gate — not from the matching
subscription(s); when every adapter result carries a status, the logged
channels are exactly that subscription's `delivery_methods`. -/
theorem C3_channels_from_first_subscription (env : DeliveryEnv)
    (alert : AlertNotification) (user : User) (sub : AlertSubscription)
    (hfind : (env.subscriptions.filter (fun s =>
      s.user.id == user.id && s.alert_type == alert.alert_type)).head? =
        some sub)
    (hst : ∀ m ∈ sub.delivery_methods,
      (send_via_method env alert user m).status.isSome) :
    (send_to_subscriber env alert user).2.map (fun l => l.delivery_method) =
      sub.delivery_methods := by
  rw [send_to_subscriber_logs, hfind]
  exact (deliverMethods_complete env alert user sub.delivery_methods hst).2

/-- C3, witness: the amended theorem at the concrete two-subscription
registry; the logged channels are the inactive first subscription's. -/
theorem C3_channels_witness :
    (send_to_subscriber (envWith [subInactiveSms, subActiveEmailV]) alertV
      u1).2.map (fun l => l.delivery_method) =
        subInactiveSms.delivery_methods :=
  C3_channels_from_first_subscription (envWith [subInactiveSms, subActiveEmailV])
    alertV u1 subInactiveSms rfl (by decide)

/-! ## Claim C4 — attempt numbering -/

/-- C4, counterexample: one matching SMS subscription; dispatching the
same alert twice creates one log row per call, and **both** rows carry
attempt number 1 — the second is not 2, because the service's
`objects.create` call never sets `delivery_attempt` and the model default
is 1. -/
theorem C4_counterexample :
    (send_alert (envWith [subV]) alertV).logs.map
      (fun l => l.delivery_attempt) = [1] ∧
    ((send_alert (envWith [subV]) alertV).logs ++
      (send_alert (envWith [subV]) alertV).logs).map
        (fun l => l.delivery_attempt) = [1, 1] ∧
    ([1, 1] : List Nat) ≠ [1, 2] := by
  refine ⟨rfl, rfl, by decide⟩

/-- C4, amended: every `DeliveryLog` row the dispatcher creates has
attempt number 1 — the attempt counter is never consulted or incremented,
so repeated dispatch reuses attempt number 1 instead of numbering rows
1, 2, …. -/
theorem C4_attempt_always_one (env : DeliveryEnv)
    (alert : AlertNotification) :
    ∀ log ∈ (send_alert env alert).logs, log.delivery_attempt = 1 := by
  intro log hlog
  unfold send_alert at hlog
  cases hres : get_alert_subscribers env.subscriptions alert with
  | error e => rw [hres] at hlog; simp at hlog
  | ok subscribers =>
    rw [hres] at hlog
    by_cases hemp : subscribers.isEmpty
    · simp [hemp] at hlog
    · simp only [hemp, Bool.false_eq_true, if_false, if_neg] at hlog
      simp only [List.mem_flatten, List.mem_map] at hlog
      obtain ⟨ls, ⟨p, ⟨u, hu, hp⟩, hls⟩, hmem⟩ := hlog
      subst hp hls
      rw [send_to_subscriber_logs] at hmem
      cases hfind : (env.subscriptions.filter (fun s =>
          s.user.id == u.id && s.alert_type == alert.alert_type)).head? with
      | none => rw [hfind] at hmem; simp at hmem
      | some sub =>
        rw [hfind] at hmem
        exact deliverMethods_attempt_one env alert u sub.delivery_methods log hmem

/-- C4, witness: the amended theorem applied to the concrete dispatch that
produces one log row. -/
theorem C4_attempt_always_one_witness :
    (send_alert (envWith [subV]) alertV).logs.headI ∈
      (send_alert (envWith [subV]) alertV).logs ∧
    (send_alert (envWith [subV]) alertV).logs.headI.delivery_attempt = 1 := by
  have hmem : (send_alert (envWith [subV]) alertV).logs.headI ∈
      (send_alert (envWith [subV]) alertV).logs := by decide
  exact ⟨hmem, C4_attempt_always_one (envWith [subV]) alertV _ hmem⟩

/-! ## Claim C5 — zero matching subscriptions -/

/-- C5, confirmed: when subscriber resolution returns the empty list,
`send_alert` raises nothing, returns `success = False` with the
no-subscribers marker, creates zero `DeliveryLog` rows and leaves the
alert row untouched. -/
theorem C5_no_subscribers (env : DeliveryEnv) (alert : AlertNotification)
    (h : get_alert_subscribers env.subscriptions alert = .ok []) :
    (send_alert env alert).result.success = false ∧
    (send_alert env alert).result.error = some "No subscribers found" ∧
    (send_alert env alert).logs = [] ∧
    (send_alert env alert).alert = alert := by
  simp [send_alert, h]

/-- C5, witness: an empty subscription registry resolves to zero
subscribers for `alertV`, and the dispatch result is as C5 states. -/
theorem C5_no_subscribers_witness :
    get_alert_subscribers env0.subscriptions alertV = .ok [] ∧
    ((send_alert env0 alertV).result.success = false ∧
     (send_alert env0 alertV).result.error = some "No subscribers found" ∧
     (send_alert env0 alertV).logs = [] ∧
     (send_alert env0 alertV).alert = alertV) :=
  ⟨rfl, C5_no_subscribers env0 alertV rfl⟩

/-! ## Claim C6 — real-time fan-out groups -/

/-- C6, counterexample: `alertV` is scoped to village `v1` whose block's
district is `d1` (id 1) and state `st1` (id 1), but its own `district` and
`state` columns are NULL; the fan-out publishes to the village group only
and neither the district nor the state group receives the alert, against
the claim's "exactly the three groups". -/
theorem C6_counterexample :
    alertV.village = some v1 ∧ v1.block.district.id = 1 ∧
    v1.block.district.state.id = 1 ∧
    (send_websocket_notification env0 alertV none).map (fun w => w.group) =
      ["alerts_village_1"] ∧
    "alerts_district_1" ∉ (send_websocket_notification env0 alertV
      none).map (fun w => w.group) ∧
    "alerts_state_1" ∉ (send_websocket_notification env0 alertV
      none).map (fun w => w.group) := by
  refine ⟨rfl, rfl, rfl, rfl, by decide, by decide⟩

/-- C6, amended: with a channel layer present, the whole-alert fan-out
publishes one `new_alert` message per **non-null scope column of the alert
row** — the village group if `alert.village` is set, the district group if
`alert.district` is set, the state group if `alert.state` is set — and to
no other group; the hierarchy of the alert's village is not consulted. -/
theorem C6_fanout_groups (env : DeliveryEnv) (alert : AlertNotification)
    (h : env.channel_layer = true) :
    (send_websocket_notification env alert none).map (fun w => w.group) =
      (alert.village.map (fun v => "alerts_village_" ++ toString v.id)).toList ++
      (alert.district.map (fun d => "alerts_district_" ++ toString d.id)).toList ++
      (alert.state.map (fun st => "alerts_state_" ++ toString st.id)).toList ∧
    ∀ w ∈ send_websocket_notification env alert none,
      w.msg_type = "new_alert" := by
  constructor
  · cases hv : alert.village <;> cases hd : alert.district <;>
      cases hs : alert.state <;>
      simp [send_websocket_notification, h, hv, hd, hs]
  · intro w hw
    unfold send_websocket_notification at hw
    rw [h] at hw
    simp only [Bool.not_true, Bool.false_eq_true, if_false, if_neg] at hw
    cases hv : alert.village <;> cases hd : alert.district <;>
      cases hs : alert.state <;> rw [hv, hd, hs] at hw <;>
      simp at hw <;>
      first
        | (rcases hw with h1 | h1 | h1 <;> subst h1 <;> rfl)
        | (rcases hw with h1 | h1 <;> subst h1 <;> rfl)
        | (subst hw; rfl)

/-- C6, witness: the amended fan-out characterisation at the concrete
village-scoped alert. -/
theorem C6_fanout_groups_witness :
    (send_websocket_notification env0 alertV none).map (fun w => w.group) =
      (alertV.village.map (fun v => "alerts_village_" ++ toString v.id)).toList ++
      (alertV.district.map (fun d => "alerts_district_" ++ toString d.id)).toList ++
      (alertV.state.map (fun st => "alerts_state_" ++ toString st.id)).toList ∧
    ∀ w ∈ send_websocket_notification env0 alertV none,
      w.msg_type = "new_alert" :=
  C6_fanout_groups env0 alertV rfl

/-! ## Claim C7 — delivery counter and last-attempt timestamp -/

/-- C7, counterexample: the dispatch clock stands at 5 but the alert was
triggered at 3; after a dispatch that reached one subscriber,
`last_delivery_attempt` equals the alert's `triggered_at` (3), not the
current time (5) — the source assigns `alert.triggered_at`, not
`timezone.now()`. -/
theorem C7_counterexample :
    (envWith [subV]).now = 5 ∧ alertV.triggered_at = 3 ∧
    (send_alert (envWith [subV]) alertV).result.success = true ∧
    (send_alert (envWith [subV]) alertV).alert.last_delivery_attempt =
      some 3 ∧
    (some 3 : Option Nat) ≠ some 5 := by
  refine ⟨rfl, rfl, rfl, rfl, by decide⟩

/-- C7, amended: whenever resolution yields at least one subscriber, the
dispatch increments `delivery_attempts` by exactly one (one fan-out round,
not one per channel) and sets `last_delivery_attempt` to the alert's
**`triggered_at`** timestamp (not the time of the dispatch call). -/
theorem C7_counter_and_timestamp (env : DeliveryEnv)
    (alert : AlertNotification) (l : List User)
    (h : get_alert_subscribers env.subscriptions alert = .ok l)
    (hne : l ≠ []) :
    (send_alert env alert).alert.delivery_attempts =
      alert.delivery_attempts + 1 ∧
    (send_alert env alert).alert.last_delivery_attempt =
      some alert.triggered_at := by
  cases l with
  | nil => exact absurd rfl hne
  | cons u us => simp [send_alert, h]

/-- C7, witness: the amended counter/timestamp theorem at the concrete
single-subscriber dispatch. -/
theorem C7_counter_and_timestamp_witness :
    (send_alert (envWith [subV]) alertV).alert.delivery_attempts =
      alertV.delivery_attempts + 1 ∧
    (send_alert (envWith [subV]) alertV).alert.last_delivery_attempt =
      some alertV.triggered_at :=
  C7_counter_and_timestamp (envWith [subV]) alertV [u1] rfl (by decide)

/-! ## Claim C8 — terminal states -/

/-- C8, counterexample: an alert already RESOLVED (a terminal state) is
moved to ACKNOWLEDGED by `acknowledge_alert`, which overwrites the status
unconditionally — the subsystem does let a terminal status transition. -/
theorem C8_counterexample :
    ({ alertV with alert_status := "RESOLVED" } :
      AlertNotification).alert_status = "RESOLVED" ∧
    (acknowledge_alert env0 { alertV with alert_status := "RESOLVED" }
      u1).1.alert_status = "ACKNOWLEDGED" ∧
    ("ACKNOWLEDGED" : String) ≠ "RESOLVED" := by
  refine ⟨rfl, rfl, by decide⟩

/-- C8, amended: `acknowledge_alert` and `resolve_alert` overwrite
`alert_status` unconditionally — whatever the current status, including the
terminal RESOLVED and CANCELLED, acknowledging yields ACKNOWLEDGED and
resolving yields RESOLVED, and both report success; no guard protects
terminal states. -/
theorem C8_no_terminal_guard (env : DeliveryEnv)
    (alert : AlertNotification) (user : User) (notes : String) :
    (acknowledge_alert env alert user).1.alert_status = "ACKNOWLEDGED" ∧
    (acknowledge_alert env alert user).2.1 = true ∧
    (resolve_alert env alert user notes).1.alert_status = "RESOLVED" ∧
    (resolve_alert env alert user notes).2.1 = true :=
  ⟨rfl, rfl, rfl, rfl⟩

/-! ## Claim C9 — rule-based contamination scorer -/

/-- C9, counterexample: a sample with E. coli 2, turbidity 0.5 and pH 3.0
— pH far outside `[6.5, 8.5]` — is classified SAFE, because the scorer
thresholds only the E. coli count; the claim's "unsafe whenever … pH falls
outside [6.5, 8.5]" fails. -/
theorem C9_counterexample :
    row_contamination_level
      { ecoli_count_per_100ml := 2, turbidity_ntu := 1/2, water_ph := 3 } =
      "SAFE" ∧
    (3 : ℚ) < 13/2 := by
  refine ⟨by norm_num [row_contamination_level], by norm_num⟩

/-- C9, amended: the contamination level depends on the E. coli count
alone — turbidity and pH are never consulted — through the fixed
thresholds 100/50/10; in particular it is SAFE exactly when the count is
at most 10, the claim's concrete example (150, 6, 7.0) is HIGH_RISK, and
(2, 0.5, 7.2) is SAFE. -/
theorem C9_ecoli_only_scorer :
    (∀ row : CsvRow, row_contamination_level row =
      row_contamination_level
        { ecoli_count_per_100ml := row.ecoli_count_per_100ml,
          turbidity_ntu := 0, water_ph := 7 }) ∧
    row_contamination_level
      { ecoli_count_per_100ml := 150, turbidity_ntu := 6, water_ph := 7 } =
        "HIGH_RISK" ∧
    row_contamination_level
      { ecoli_count_per_100ml := 2, turbidity_ntu := 1/2,
        water_ph := 72/10 } = "SAFE" ∧
    (∀ row : CsvRow, (row_contamination_level row = "SAFE" ↔
      row.ecoli_count_per_100ml ≤ 10)) := by
  refine ⟨fun row => rfl, by norm_num [row_contamination_level],
    by norm_num [row_contamination_level], fun row => ?_⟩
  unfold row_contamination_level
  by_cases h1 : (100 : ℚ) < row.ecoli_count_per_100ml
  · simp only [h1, if_true]
    constructor
    · intro h; exact absurd h (by decide)
    · intro h; linarith
  · by_cases h2 : (50 : ℚ) < row.ecoli_count_per_100ml
    · simp only [h1, h2, if_true, if_false]
      constructor
      · intro h; exact absurd h (by decide)
      · intro h; linarith
    · by_cases h3 : (10 : ℚ) < row.ecoli_count_per_100ml
      · simp only [h1, h2, h3, if_true, if_false]
        constructor
        · intro h; exact absurd h (by decide)
        · intro h; linarith
      · simp only [h1, h2, h3, if_false]
        simp only [true_iff]
        linarith [not_lt.mp h3]

/-! ## Claim C10 — invalid severity raises, send_alert recovers -/

/-- C10, confirmed: an alert whose severity is not one of LOW, MEDIUM,
HIGH, CRITICAL makes `severity_order.index` raise `ValueError` inside
`get_alert_subscribers`; `send_alert` catches it and returns a structured
failure with the stringified error, creating zero `DeliveryLog` rows and
leaving the alert row untouched. -/
theorem C10_invalid_severity (env : DeliveryEnv)
    (alert : AlertNotification)
    (h : alert.alert_severity ∉ severity_order) :
    get_alert_subscribers env.subscriptions alert =
      .error (valueErrorMsg alert.alert_severity) ∧
    (send_alert env alert).result.success = false ∧
    (send_alert env alert).result.error =
      some (valueErrorMsg alert.alert_severity) ∧
    (send_alert env alert).logs = [] ∧
    (send_alert env alert).alert = alert := by
  have hidx : listIndex alert.alert_severity severity_order = none :=
    listIndex_eq_none h
  have hres : get_alert_subscribers env.subscriptions alert =
      .error (valueErrorMsg alert.alert_severity) := by
    simp [get_alert_subscribers, hidx]
  exact ⟨hres, by simp [send_alert, hres]⟩

/-- C10, witness: the severity string EXTREME is outside the fixed list
and the dispatch on such an alert fails structurally with zero logs. -/
theorem C10_invalid_severity_witness :
    ({ alertV with alert_severity := "EXTREME" } :
      AlertNotification).alert_severity ∉ severity_order ∧
    ((send_alert env0 { alertV with alert_severity := "EXTREME" }).result.success = false ∧
     (send_alert env0 { alertV with alert_severity := "EXTREME" }).logs = []) := by
  have h := C10_invalid_severity env0
    { alertV with alert_severity := "EXTREME" } (by decide)
  exact ⟨by decide, h.2.1, h.2.2.2.1⟩

end SIHWater
